import Mathlib

/-!
Shallow embedding of `xmodem_io.c` (qmsi XMODEM UART transport), the
single-byte timeout-bounded receive primitive.

The C module coordinates two interrupt sources (UART completion and RTC
alarm) through one `volatile` state cell `xmodem_io_rx_state`.  We embed
the module state as an explicit record, the two interrupt handlers as
state transformers, and `xmodem_io_getc` as a function of the list of
interrupt events delivered while its busy-wait loop spins.  Besides the
result code and final state, `xmodem_io_getc` returns the ordered trace
of the hardware actions and shared-state writes it performed, so ordering
properties of the call can be stated.
-/

/-- errno constant EIO (I/O error), value 5, from the toolchain errno.h. -/
def eio : Int := 5

/-- errno constant ETIME (timer expired), value 62, from the toolchain errno.h. -/
def etime : Int := 62

/-- Modelled from the spec: RTC ticks per second, from the hardware
abstraction header qm_rtc.h (not under src/); the spec fixes only the
total alarm duration, 2 seconds, as a compile-time constant. -/
def QM_RTC_ALARM_SECOND : Nat := 32768

/-- `#define XMODEM_UART_TIMEOUT_S (2)` -/
def XMODEM_UART_TIMEOUT_S : Nat := 2

/-- The XMODEM RX state enum (`enum rx_state`), with its C numeric values
given by `RxState.toInt`. -/
inductive RxState where
  | STATE_UART_ERROR
  | STATE_TIMEOUT
  | STATE_UART_RX_DONE
  | STATE_WAITING
deriving DecidableEq, Repr

/-- Numeric values of the enumerators:
`STATE_UART_ERROR = -EIO, STATE_TIMEOUT = -ETIME, STATE_UART_RX_DONE = 1,
STATE_WAITING = 2`. -/
def RxState.toInt : RxState → Int
  | RxState.STATE_UART_ERROR => -eio
  | RxState.STATE_TIMEOUT => -etime
  | RxState.STATE_UART_RX_DONE => 1
  | RxState.STATE_WAITING => 2

/-- `qm_rtc_config_t` fields used by this module (callback pointers elided:
the callback is always `rtc_callback`/NULL). -/
structure QmRtcConfig where
  init_val : Nat
  alarm_en : Bool
  alarm_val : Nat
deriving DecidableEq, Repr

/-- The initializer of the global `rtc_cfg`:
`{ .init_val = 0, .alarm_en = false,
   .alarm_val = (QM_RTC_ALARM_SECOND * XMODEM_UART_TIMEOUT_S), ... }`. -/
def rtc_cfg : QmRtcConfig :=
  { init_val := 0
    alarm_en := false
    alarm_val := QM_RTC_ALARM_SECOND * XMODEM_UART_TIMEOUT_S }

/-- `uart_callback(data, error, status, len)`: classifies the completed
transfer solely by the sign of `error`, writing the value stored into
`xmodem_io_rx_state`; `status` and `len` are unused in the body. -/
def uart_callback (error : Int) (status : Nat) (len : Nat) : RxState :=
  if error < 0 then RxState.STATE_UART_ERROR else RxState.STATE_UART_RX_DONE

/-- `rtc_callback(data)`: writes `STATE_TIMEOUT` into `xmodem_io_rx_state`
unconditionally.  The argument is the current value of the cell, which the
C body ignores (it performs a plain unconditional store). -/
def rtc_callback (st : RxState) : RxState :=
  RxState.STATE_TIMEOUT

/-- The mutable module state: the `volatile` cell `xmodem_io_rx_state`, the
ISR landing buffer `in_byte`, the global `rtc_cfg` block, and the caller's
output location `*ch`. -/
structure XmodemState where
  xmodem_io_rx_state : RxState
  in_byte : Nat
  rtc_cfg : QmRtcConfig
  ch : Nat
deriving DecidableEq, Repr

/-- An interrupt event delivered while the busy-wait loop spins: either the
UART completes the one-byte transfer (the ISR lands `byte` in `in_byte`
via `uart_transfer.data` and invokes `uart_callback` with `error`,
`status`, `len`), or the RTC alarm fires and invokes `rtc_callback`. -/
inductive Event where
  | uartDone (error : Int) (status : Nat) (len : Nat) (byte : Nat)
  | rtcAlarm
deriving DecidableEq, Repr

/-- Effect of one interrupt event on the module state. -/
def applyEvent (s : XmodemState) : Event → XmodemState
  | Event.uartDone error status len byte =>
      { s with in_byte := byte
               xmodem_io_rx_state := uart_callback error status len }
  | Event.rtcAlarm =>
      { s with xmodem_io_rx_state := rtc_callback s.xmodem_io_rx_state }

/-- Hardware actions and shared-state writes performed by
`xmodem_io_getc`, in program order. -/
inductive HwAction where
  | rtcSetConfig (cfg : QmRtcConfig)
  | rxStateWrite (st : RxState)
  | uartIrqRead
  | uartIrqReadTerminate
  | chWrite (b : Nat)
deriving DecidableEq, Repr

/-- True exactly on a write to the caller's output location `*ch`. -/
def HwAction.isChWrite : HwAction → Bool
  | HwAction.chWrite _ => true
  | _ => false

/-- The busy-wait loop
`while (retv = xmodem_io_rx_state, retv == STATE_WAITING) ;`.
Each iteration reads the cell; while it reads `STATE_WAITING` the next
pending interrupt event (if any) is applied.  Returns the first
non-waiting value read together with the state at that point, or `none`
when the events run out with the cell still `STATE_WAITING` (the loop
would spin forever). -/
def pollLoop : List Event → XmodemState → Option (RxState × XmodemState)
  | [], s =>
      if s.xmodem_io_rx_state = RxState.STATE_WAITING then none
      else some (s.xmodem_io_rx_state, s)
  | e :: rest, s =>
      if s.xmodem_io_rx_state = RxState.STATE_WAITING then
        pollLoop rest (applyEvent s e)
      else some (s.xmodem_io_rx_state, s)

/-- The `switch (retv)` block of `xmodem_io_getc`: on `STATE_TIMEOUT`,
`qm_uart_irq_read_terminate(DM_CONFIG_UART)`; on `STATE_UART_RX_DONE`,
`*ch = in_byte`; `default` (STATE_UART_ERROR, and the impossible
STATE_WAITING) does nothing.  Returns the updated state and the actions
this block performed. -/
def getcSwitch (retv : RxState) (s3 : XmodemState) : XmodemState × List HwAction :=
  match retv with
  | RxState.STATE_TIMEOUT => (s3, [HwAction.uartIrqReadTerminate])
  | RxState.STATE_UART_RX_DONE =>
      ({ s3 with ch := s3.in_byte }, [HwAction.chWrite s3.in_byte])
  | _ => (s3, [])

/-- `int xmodem_io_getc(uint8_t *ch)`, with the interrupts delivered during
the wait made explicit as `events`.  Program order, as in the C body:
1. `rtc_cfg.alarm_en = true; qm_rtc_set_config(QM_RTC_0, &rtc_cfg);`
2. `xmodem_io_rx_state = STATE_WAITING;`
3. `qm_uart_irq_read(DM_CONFIG_UART, &uart_transfer);`
4. the busy-wait loop;
5. the `switch (retv)` block;
6. `rtc_cfg.alarm_en = false; qm_rtc_set_config(QM_RTC_0, &rtc_cfg);`
7. `return retv;`
Result: the returned `int`, the final module state, and the trace of
actions; `none` when the loop never exits. -/
def xmodem_io_getc (events : List Event) (s0 : XmodemState) :
    Option (Int × XmodemState × List HwAction) :=
  match pollLoop events
      { s0 with rtc_cfg := { s0.rtc_cfg with alarm_en := true }
                xmodem_io_rx_state := RxState.STATE_WAITING } with
  | none => none
  | some (retv, s3) =>
      some (retv.toInt,
        { (getcSwitch retv s3).1 with
            rtc_cfg := { (getcSwitch retv s3).1.rtc_cfg with alarm_en := false } },
        HwAction.rtcSetConfig { s0.rtc_cfg with alarm_en := true }
          :: HwAction.rxStateWrite RxState.STATE_WAITING
          :: HwAction.uartIrqRead
          :: ((getcSwitch retv s3).2
              ++ [HwAction.rtcSetConfig
                    { (getcSwitch retv s3).1.rtc_cfg with alarm_en := false }]))

/-- A quiescent module state used to instantiate theorems on concrete runs. -/
def xmodem_state0 : XmodemState :=
  { xmodem_io_rx_state := RxState.STATE_WAITING
    in_byte := 0
    rtc_cfg := rtc_cfg
    ch := 0 }

/-- The run that delivered byte 65 with error code 0: final state. -/
def s_done : XmodemState :=
  { xmodem_io_rx_state := RxState.STATE_UART_RX_DONE
    in_byte := 65
    rtc_cfg := rtc_cfg
    ch := 65 }

/-- The run that delivered byte 65 with error code 0: action trace. -/
def tr_done : List HwAction :=
  [HwAction.rtcSetConfig { rtc_cfg with alarm_en := true },
   HwAction.rxStateWrite RxState.STATE_WAITING,
   HwAction.uartIrqRead,
   HwAction.chWrite 65,
   HwAction.rtcSetConfig rtc_cfg]

/-- The run where only the RTC alarm fired: final state. -/
def s_timeout : XmodemState :=
  { xmodem_io_rx_state := RxState.STATE_TIMEOUT
    in_byte := 0
    rtc_cfg := rtc_cfg
    ch := 0 }

/-- The run where only the RTC alarm fired: action trace. -/
def tr_timeout : List HwAction :=
  [HwAction.rtcSetConfig { rtc_cfg with alarm_en := true },
   HwAction.rxStateWrite RxState.STATE_WAITING,
   HwAction.uartIrqRead,
   HwAction.uartIrqReadTerminate,
   HwAction.rtcSetConfig rtc_cfg]

/-- The run whose UART completion reported error code -22: final state. -/
def s_err : XmodemState :=
  { xmodem_io_rx_state := RxState.STATE_UART_ERROR
    in_byte := 0
    rtc_cfg := rtc_cfg
    ch := 0 }

/-- The run whose UART completion reported error code -22: action trace. -/
def tr_err : List HwAction :=
  [HwAction.rtcSetConfig { rtc_cfg with alarm_en := true },
   HwAction.rxStateWrite RxState.STATE_WAITING,
   HwAction.uartIrqRead,
   HwAction.rtcSetConfig rtc_cfg]

lemma applyEvent_rtc_cfg (s : XmodemState) (e : Event) :
    (applyEvent s e).rtc_cfg = s.rtc_cfg := by
  cases e <;> rfl

lemma applyEvent_ch (s : XmodemState) (e : Event) :
    (applyEvent s e).ch = s.ch := by
  cases e <;> rfl

/-- Exiting the busy-wait loop yields a non-waiting value that is the final
state's cell value; the loop body touches neither `rtc_cfg` nor `*ch`. -/
lemma pollLoop_some_elim :
    ∀ (evs : List Event) (s : XmodemState) (retv : RxState) (s' : XmodemState),
      pollLoop evs s = some (retv, s') →
      retv ≠ RxState.STATE_WAITING ∧ s'.xmodem_io_rx_state = retv ∧
      s'.rtc_cfg = s.rtc_cfg ∧ s'.ch = s.ch := by
  intro evs
  induction evs with
  | nil =>
    intro s retv s' h
    by_cases hw : s.xmodem_io_rx_state = RxState.STATE_WAITING
    · simp [pollLoop, hw] at h
    · simp [pollLoop, hw] at h
      obtain ⟨h1, h2⟩ := h
      subst h2
      subst h1
      exact ⟨hw, rfl, rfl, rfl⟩
  | cons e rest ih =>
    intro s retv s' h
    by_cases hw : s.xmodem_io_rx_state = RxState.STATE_WAITING
    · simp only [pollLoop, hw, if_true] at h
      obtain ⟨h1, h2, h3, h4⟩ := ih (applyEvent s e) retv s' h
      exact ⟨h1, h2, by rw [h3, applyEvent_rtc_cfg], by rw [h4, applyEvent_ch]⟩
    · simp [pollLoop, hw] at h
      obtain ⟨h1, h2⟩ := h
      subst h2
      subst h1
      exact ⟨hw, rfl, rfl, rfl⟩

/-- A loop started (or continued) on a non-waiting cell exits at once. -/
lemma pollLoop_stop (evs : List Event) {s : XmodemState}
    (h : s.xmodem_io_rx_state ≠ RxState.STATE_WAITING) :
    pollLoop evs s = some (s.xmodem_io_rx_state, s) := by
  cases evs <;> simp [pollLoop, h]

/-- A loop iteration on a waiting cell consumes the next pending event. -/
lemma pollLoop_cons_waiting (e : Event) (rest : List Event) {s : XmodemState}
    (hw : s.xmodem_io_rx_state = RxState.STATE_WAITING) :
    pollLoop (e :: rest) s = pollLoop rest (applyEvent s e) := by
  simp [pollLoop, hw]

lemma getcSwitch_fst_rtc_cfg (retv : RxState) (s3 : XmodemState) :
    (getcSwitch retv s3).1.rtc_cfg = s3.rtc_cfg := by
  cases retv <;> rfl

lemma getcSwitch_fst_rx (retv : RxState) (s3 : XmodemState) :
    (getcSwitch retv s3).1.xmodem_io_rx_state = s3.xmodem_io_rx_state := by
  cases retv <;> rfl

lemma getcSwitch_fst_in_byte (retv : RxState) (s3 : XmodemState) :
    (getcSwitch retv s3).1.in_byte = s3.in_byte := by
  cases retv <;> rfl

/-- Anatomy of a returning `xmodem_io_getc` call: the loop exited with some
`retv` and state `s3`, the result is `retv`'s numeric value, the final
state is the switch block's state with the alarm disabled, and the trace
is arm, reset, read, the switch block's actions, disarm. -/
lemma getc_some_elim {evs : List Event} {s0 : XmodemState} {r : Int}
    {s : XmodemState} {tr : List HwAction}
    (h : xmodem_io_getc evs s0 = some (r, s, tr)) :
    ∃ retv s3,
      pollLoop evs { s0 with rtc_cfg := { s0.rtc_cfg with alarm_en := true }
                             xmodem_io_rx_state := RxState.STATE_WAITING }
        = some (retv, s3)
      ∧ r = retv.toInt
      ∧ s = { (getcSwitch retv s3).1 with
                rtc_cfg := { s3.rtc_cfg with alarm_en := false } }
      ∧ tr = HwAction.rtcSetConfig { s0.rtc_cfg with alarm_en := true }
          :: HwAction.rxStateWrite RxState.STATE_WAITING
          :: HwAction.uartIrqRead
          :: ((getcSwitch retv s3).2
              ++ [HwAction.rtcSetConfig { s3.rtc_cfg with alarm_en := false }]) := by
  unfold xmodem_io_getc at h
  rcases hp : pollLoop evs
      { s0 with rtc_cfg := { s0.rtc_cfg with alarm_en := true }
                xmodem_io_rx_state := RxState.STATE_WAITING } with _ | ⟨retv, s3⟩
  · rw [hp] at h
    simp at h
  · rw [hp] at h
    simp only [Option.some.injEq, Prod.mk.injEq, getcSwitch_fst_rtc_cfg] at h
    exact ⟨retv, s3, rfl, h.1.symm, h.2.1.symm, h.2.2.symm⟩

/-- The numeric enum values distinguish the enumerators. -/
lemma RxState.toInt_inj (a b : RxState) (h : a.toInt = b.toInt) : a = b := by
  revert h
  cases a <;> cases b <;> decide

/-- If the wait begins on a waiting cell and the very first interrupt event
moves the cell out of `Waiting`, the loop exits with exactly that event's
outcome. -/
lemma pollLoop_first_resolves (e : Event) (rest : List Event) (s : XmodemState)
    (hw : s.xmodem_io_rx_state = RxState.STATE_WAITING)
    (hnv : (applyEvent s e).xmodem_io_rx_state ≠ RxState.STATE_WAITING) :
    pollLoop (e :: rest) s
      = some ((applyEvent s e).xmodem_io_rx_state, applyEvent s e) := by
  rw [pollLoop_cons_waiting e rest hw]
  exact pollLoop_stop rest hnv

/-- C1 (counterexample): a receive attempt whose UART completion reports the
hardware fault code -22 returns -5 (-EIO), not -22: the fault code is not
passed through verbatim. -/
theorem C1_counterexample :
    (xmodem_io_getc [Event.uartDone (-22) 0 0 0] xmodem_state0).map
        (fun p => p.1) = some (-5)
    ∧ ((-5 : Int) ≠ -22) := by
  refine ⟨by decide, by decide⟩

/-- C1 (amended): when the UART completion callback reports a hardware fault
(any negative error code), `xmodem_io_getc` returns the fixed line-error
code -EIO, regardless of which negative fault code was reported. -/
theorem C1_line_error_fixed_code (error : Int) (h : error < 0)
    (status len byte : Nat) (rest : List Event) (s0 : XmodemState) :
    (xmodem_io_getc (Event.uartDone error status len byte :: rest) s0).map
      (fun p => p.1) = some (-eio) := by
  have h1 : uart_callback error status len = RxState.STATE_UART_ERROR := if_pos h
  have h2 := pollLoop_first_resolves (Event.uartDone error status len byte) rest
      { s0 with rtc_cfg := { s0.rtc_cfg with alarm_en := true }
                xmodem_io_rx_state := RxState.STATE_WAITING }
      rfl (by simp [applyEvent, h1])
  unfold xmodem_io_getc
  rw [h2]
  simp [applyEvent, h1, getcSwitch, RxState.toInt]

/-- C1 (witness): the amended theorem at the concrete fault code -7. -/
theorem C1_witness :
    (xmodem_io_getc [Event.uartDone (-7) 0 1 65] xmodem_state0).map
      (fun p => p.1) = some (-eio) :=
  C1_line_error_fixed_code (-7) (by decide) 0 1 65 [] xmodem_state0

/-- C2 (counterexample): the timer-expiry callback overwrites a cell that
already holds the terminal outcome `STATE_UART_RX_DONE` with
`STATE_TIMEOUT`, although that state is not `STATE_WAITING`: the callback
does not check the state before writing. -/
theorem C2_counterexample :
    rtc_callback RxState.STATE_UART_RX_DONE = RxState.STATE_TIMEOUT
    ∧ RxState.STATE_UART_RX_DONE ≠ RxState.STATE_WAITING := by
  decide

/-- C2 (amended): `rtc_callback` stores `STATE_TIMEOUT` into the shared cell
unconditionally, whatever the cell holds; a timer interrupt delivered after
the cell has left `Waiting` overwrites the terminal outcome. -/
theorem C2_rtc_writes_unconditionally (s : XmodemState) :
    (applyEvent s Event.rtcAlarm).xmodem_io_rx_state = RxState.STATE_TIMEOUT :=
  rfl

/-- C3: a returning `xmodem_io_getc` call writes the caller's output
location exactly once and only when the outcome is `STATE_UART_RX_DONE`
(return value 1), storing the byte the ISR landed in `in_byte`; on the
line-error and timeout outcomes the output location is unchanged and no
write to it appears in the trace. -/
theorem C3_output_byte_write (evs : List Event) (s0 : XmodemState) (r : Int)
    (s : XmodemState) (tr : List HwAction)
    (h : xmodem_io_getc evs s0 = some (r, s, tr)) :
    (r = RxState.STATE_UART_RX_DONE.toInt →
        s.ch = s.in_byte ∧ tr.countP HwAction.isChWrite = 1
        ∧ HwAction.chWrite s.in_byte ∈ tr)
    ∧ (r ≠ RxState.STATE_UART_RX_DONE.toInt →
        s.ch = s0.ch ∧ tr.countP HwAction.isChWrite = 0) := by
  obtain ⟨retv, s3, hp, hr, hs, htr⟩ := getc_some_elim h
  obtain ⟨hnw, hrx, hcfg, hch⟩ := pollLoop_some_elim _ _ _ _ hp
  change s3.ch = s0.ch at hch
  subst hr
  subst hs
  subst htr
  cases retv with
  | STATE_UART_RX_DONE =>
    refine ⟨fun _ => ⟨rfl, rfl, ?_⟩, fun hc => absurd rfl hc⟩
    simp [getcSwitch]
  | STATE_TIMEOUT =>
    exact ⟨fun hc => absurd hc (by decide), fun _ => ⟨hch, rfl⟩⟩
  | STATE_UART_ERROR =>
    exact ⟨fun hc => absurd hc (by decide), fun _ => ⟨hch, rfl⟩⟩
  | STATE_WAITING =>
    exact absurd rfl hnw

/-- C3 (witness): the theorem at the concrete run that received byte 65. -/
theorem C3_witness :
    ((1 : Int) = RxState.STATE_UART_RX_DONE.toInt →
        s_done.ch = s_done.in_byte ∧ tr_done.countP HwAction.isChWrite = 1
        ∧ HwAction.chWrite s_done.in_byte ∈ tr_done)
    ∧ ((1 : Int) ≠ RxState.STATE_UART_RX_DONE.toInt →
        s_done.ch = xmodem_state0.ch ∧ tr_done.countP HwAction.isChWrite = 0) :=
  C3_output_byte_write [Event.uartDone 0 3 1 65] xmodem_state0 1 s_done tr_done
    (by decide)

/-- C4: a returning `xmodem_io_getc` call invokes
`qm_uart_irq_read_terminate` if and only if it returns the timeout code:
the pending read is cancelled on the timeout path and on no other path. -/
theorem C4_cancel_read_iff_timeout (evs : List Event) (s0 : XmodemState)
    (r : Int) (s : XmodemState) (tr : List HwAction)
    (h : xmodem_io_getc evs s0 = some (r, s, tr)) :
    (HwAction.uartIrqReadTerminate ∈ tr) ↔ r = RxState.STATE_TIMEOUT.toInt := by
  obtain ⟨retv, s3, hp, hr, hs, htr⟩ := getc_some_elim h
  subst hr
  subst htr
  cases retv <;> simp [getcSwitch, RxState.toInt, eio, etime]

/-- C4 (witness): the theorem at the concrete run where the alarm fired. -/
theorem C4_witness :
    (HwAction.uartIrqReadTerminate ∈ tr_timeout)
      ↔ (-62 : Int) = RxState.STATE_TIMEOUT.toInt :=
  C4_cancel_read_iff_timeout [Event.rtcAlarm] xmodem_state0 (-62) s_timeout
    tr_timeout (by decide)

/-- C5: every returning `xmodem_io_getc` call performs, in this order: arm
the alarm, reset the shared cell to `STATE_WAITING`, start the asynchronous
read; the poll then exits only with a non-waiting result, and the call's
outcome is independent of whatever stale value the shared cell held at
entry (the reset precedes the read). -/
theorem C5_call_sequence (evs : List Event) (s0 : XmodemState) (r : Int)
    (s : XmodemState) (tr : List HwAction)
    (h : xmodem_io_getc evs s0 = some (r, s, tr)) :
    tr.take 3 = [HwAction.rtcSetConfig { s0.rtc_cfg with alarm_en := true },
                 HwAction.rxStateWrite RxState.STATE_WAITING,
                 HwAction.uartIrqRead]
    ∧ r ≠ RxState.STATE_WAITING.toInt
    ∧ ∀ stale : RxState,
        xmodem_io_getc evs { s0 with xmodem_io_rx_state := stale }
          = xmodem_io_getc evs s0 := by
  obtain ⟨retv, s3, hp, hr, hs, htr⟩ := getc_some_elim h
  obtain ⟨hnw, -, -, -⟩ := pollLoop_some_elim _ _ _ _ hp
  subst hr
  subst htr
  exact ⟨rfl, fun hc => hnw (RxState.toInt_inj _ _ hc), fun stale => rfl⟩

/-- C5 (witness): the theorem at the concrete run with fault code -22,
with the stale-state independence instantiated at `STATE_TIMEOUT`. -/
theorem C5_witness :
    tr_err.take 3 = [HwAction.rtcSetConfig { xmodem_state0.rtc_cfg with alarm_en := true },
                     HwAction.rxStateWrite RxState.STATE_WAITING,
                     HwAction.uartIrqRead]
    ∧ (-5 : Int) ≠ RxState.STATE_WAITING.toInt
    ∧ xmodem_io_getc [Event.uartDone (-22) 0 0 0]
        { xmodem_state0 with xmodem_io_rx_state := RxState.STATE_TIMEOUT }
        = xmodem_io_getc [Event.uartDone (-22) 0 0 0] xmodem_state0 := by
  have h := C5_call_sequence [Event.uartDone (-22) 0 0 0] xmodem_state0 (-5)
      s_err tr_err (by decide)
  exact ⟨h.1, h.2.1, h.2.2 RxState.STATE_TIMEOUT⟩

/-- C6 (counterexample): in the concrete run that received byte 66, the
first action the call performs is arming the alarm (`qm_rtc_set_config`
with the enabled flag set) and the reset of the shared cell to
`STATE_WAITING` is only the second action — and it occurs exactly once in
the whole trace — so the reset is not performed before the timeout is
armed. -/
theorem C6_counterexample :
    ((xmodem_io_getc [Event.uartDone 0 3 1 66] xmodem_state0).map fun p =>
        ((p.2.2)[0]?, (p.2.2)[1]?,
         p.2.2.count (HwAction.rxStateWrite RxState.STATE_WAITING)))
      = some (some (HwAction.rtcSetConfig { rtc_cfg with alarm_en := true }),
              some (HwAction.rxStateWrite RxState.STATE_WAITING), 1) := by
  decide

/-- C6 (amended): in every returning `xmodem_io_getc` call the shared-state
reset to `STATE_WAITING` is performed after the timeout is armed and before
the asynchronous read is started. -/
theorem C6_reset_follows_arm (evs : List Event) (s0 : XmodemState) (r : Int)
    (s : XmodemState) (tr : List HwAction)
    (h : xmodem_io_getc evs s0 = some (r, s, tr)) :
    tr[0]? = some (HwAction.rtcSetConfig { s0.rtc_cfg with alarm_en := true })
    ∧ tr[1]? = some (HwAction.rxStateWrite RxState.STATE_WAITING)
    ∧ tr[2]? = some HwAction.uartIrqRead := by
  obtain ⟨retv, s3, hp, hr, hs, htr⟩ := getc_some_elim h
  subst htr
  refine ⟨by simp, by simp, by simp⟩

/-- C6 (witness): the amended theorem at the concrete alarm-fired run. -/
theorem C6_witness :
    tr_timeout[0]? = some (HwAction.rtcSetConfig { xmodem_state0.rtc_cfg with alarm_en := true })
    ∧ tr_timeout[1]? = some (HwAction.rxStateWrite RxState.STATE_WAITING)
    ∧ tr_timeout[2]? = some HwAction.uartIrqRead :=
  C6_reset_follows_arm [Event.rtcAlarm] xmodem_state0 (-62) s_timeout
    tr_timeout (by decide)

/-- C7: every returning `xmodem_io_getc` call first writes the alarm
configuration with the enabled flag true, last writes it with the enabled
flag false (on every exit path), leaves the flag false in the final state,
and the configured duration is the fixed compile-time constant
`QM_RTC_ALARM_SECOND * XMODEM_UART_TIMEOUT_S` (2 seconds), which the call
never modifies. -/
theorem C7_alarm_toggled_every_path (evs : List Event) (s0 : XmodemState)
    (r : Int) (s : XmodemState) (tr : List HwAction)
    (h : xmodem_io_getc evs s0 = some (r, s, tr)) :
    tr.head? = some (HwAction.rtcSetConfig { s0.rtc_cfg with alarm_en := true })
    ∧ tr.getLast? = some (HwAction.rtcSetConfig { s0.rtc_cfg with alarm_en := false })
    ∧ s.rtc_cfg = { s0.rtc_cfg with alarm_en := false }
    ∧ rtc_cfg.alarm_val = QM_RTC_ALARM_SECOND * XMODEM_UART_TIMEOUT_S := by
  obtain ⟨retv, s3, hp, hr, hs, htr⟩ := getc_some_elim h
  obtain ⟨-, -, hcfg, -⟩ := pollLoop_some_elim _ _ _ _ hp
  have hc3 : s3.rtc_cfg = { s0.rtc_cfg with alarm_en := true } := hcfg
  subst hs
  subst htr
  refine ⟨rfl, ?_, ?_, rfl⟩
  · rw [hc3]
    cases retv <;> rfl
  · rw [hc3]

/-- C7 (witness): the theorem at the concrete run that received byte 65. -/
theorem C7_witness :
    tr_done.head? = some (HwAction.rtcSetConfig { xmodem_state0.rtc_cfg with alarm_en := true })
    ∧ tr_done.getLast? = some (HwAction.rtcSetConfig { xmodem_state0.rtc_cfg with alarm_en := false })
    ∧ s_done.rtc_cfg = { xmodem_state0.rtc_cfg with alarm_en := false }
    ∧ rtc_cfg.alarm_val = QM_RTC_ALARM_SECOND * XMODEM_UART_TIMEOUT_S :=
  C7_alarm_toggled_every_path [Event.uartDone 0 3 1 65] xmodem_state0 1 s_done
    tr_done (by decide)

/-- C8: a returning `xmodem_io_getc` call never returns the `Waiting`
value: the result is exactly one of the success, line-error or timeout
codes, and the final shared state is not `STATE_WAITING` (the post-loop
branch for a waiting result is unreachable). -/
theorem C8_result_never_waiting (evs : List Event) (s0 : XmodemState)
    (r : Int) (s : XmodemState) (tr : List HwAction)
    (h : xmodem_io_getc evs s0 = some (r, s, tr)) :
    r ≠ RxState.STATE_WAITING.toInt
    ∧ (r = RxState.STATE_UART_RX_DONE.toInt ∨ r = RxState.STATE_UART_ERROR.toInt
        ∨ r = RxState.STATE_TIMEOUT.toInt)
    ∧ s.xmodem_io_rx_state ≠ RxState.STATE_WAITING := by
  obtain ⟨retv, s3, hp, hr, hs, htr⟩ := getc_some_elim h
  obtain ⟨hnw, hrx, -, -⟩ := pollLoop_some_elim _ _ _ _ hp
  subst hr
  subst hs
  refine ⟨fun hc => hnw (RxState.toInt_inj _ _ hc), ?_, ?_⟩
  · cases retv with
    | STATE_WAITING => exact absurd rfl hnw
    | STATE_UART_RX_DONE => exact Or.inl rfl
    | STATE_UART_ERROR => exact Or.inr (Or.inl rfl)
    | STATE_TIMEOUT => exact Or.inr (Or.inr rfl)
  · show (getcSwitch retv s3).1.xmodem_io_rx_state ≠ RxState.STATE_WAITING
    rw [getcSwitch_fst_rx, hrx]
    exact hnw

/-- C8 (witness): the theorem at the concrete run with fault code -22. -/
theorem C8_witness :
    ((-5 : Int) ≠ RxState.STATE_WAITING.toInt)
    ∧ ((-5 : Int) = RxState.STATE_UART_RX_DONE.toInt
        ∨ (-5 : Int) = RxState.STATE_UART_ERROR.toInt
        ∨ (-5 : Int) = RxState.STATE_TIMEOUT.toInt)
    ∧ s_err.xmodem_io_rx_state ≠ RxState.STATE_WAITING :=
  C8_result_never_waiting [Event.uartDone (-22) 0 0 0] xmodem_state0 (-5)
    s_err tr_err (by decide)

/-- C9: `uart_callback` classifies the outcome solely by the sign of its
error argument: negative yields `STATE_UART_ERROR`, non-negative (zero
included) yields `STATE_UART_RX_DONE`; the status and length arguments do
not affect the result. -/
theorem C9_sign_only (error : Int) (status len status2 len2 : Nat) :
    (error < 0 → uart_callback error status len = RxState.STATE_UART_ERROR)
    ∧ (0 ≤ error → uart_callback error status len = RxState.STATE_UART_RX_DONE)
    ∧ uart_callback error status len = uart_callback error status2 len2
    ∧ uart_callback 0 status len = RxState.STATE_UART_RX_DONE := by
  refine ⟨fun hneg => if_pos hneg, fun hpos => ?_, rfl, rfl⟩
  exact if_neg (by omega)

/-- C9 (witness): the theorem at error codes -1 and 0 (with differing
status and length arguments). -/
theorem C9_witness :
    uart_callback (-1) 3 4 = RxState.STATE_UART_ERROR
    ∧ uart_callback 0 3 4 = RxState.STATE_UART_RX_DONE :=
  ⟨(C9_sign_only (-1) 3 4 0 0).1 (by decide),
   (C9_sign_only 0 3 4 0 0).2.1 (by decide)⟩

/-- C10: the public status values are the numeric values of the internal
enum: success is 1 (`STATE_UART_RX_DONE`), line error is -EIO, timeout is
-ETIME; in particular no returning call yields 0, and the result equals 1
exactly on the success outcome, so testing the result against 0
misclassifies every outcome. -/
theorem C10_status_codes :
    RxState.STATE_UART_RX_DONE.toInt = 1
    ∧ RxState.STATE_UART_ERROR.toInt = -eio
    ∧ RxState.STATE_TIMEOUT.toInt = -etime
    ∧ RxState.STATE_UART_RX_DONE.toInt ≠ 0
    ∧ ∀ (evs : List Event) (s0 : XmodemState) (r : Int) (s : XmodemState)
        (tr : List HwAction), xmodem_io_getc evs s0 = some (r, s, tr) →
          r ≠ 0 ∧ (r = 1 ↔ s.xmodem_io_rx_state = RxState.STATE_UART_RX_DONE) := by
  refine ⟨rfl, rfl, rfl, by decide, ?_⟩
  intro evs s0 r s tr h
  obtain ⟨retv, s3, hp, hr, hs, htr⟩ := getc_some_elim h
  obtain ⟨hnw, hrx, -, -⟩ := pollLoop_some_elim _ _ _ _ hp
  subst hr
  subst hs
  constructor
  · cases retv <;> decide
  · show retv.toInt = 1 ↔ (getcSwitch retv s3).1.xmodem_io_rx_state = RxState.STATE_UART_RX_DONE
    rw [getcSwitch_fst_rx, hrx]
    cases retv <;> decide

/-- C10 (witness): the universally quantified part of the theorem at the
concrete run that received byte 65. -/
theorem C10_witness :
    (1 : Int) ≠ 0
    ∧ ((1 : Int) = 1 ↔ s_done.xmodem_io_rx_state = RxState.STATE_UART_RX_DONE) :=
  C10_status_codes.2.2.2.2 [Event.uartDone 0 3 1 65] xmodem_state0 1 s_done
    tr_done (by decide)
